import Mathlib

/-!
Verification of the slack-bot-api event pipeline: a shallow embedding of
`config/config.go`, `internal/slack/client.go` (filter and event loop),
`internal/bot/bot.go` (orchestrator) and `internal/openai/client.go`
(transformation client), together with theorems checking the repository's
specification claims against these definitions.

External effects (Slack API lookups, the OpenAI HTTP call, message posting)
are modelled as explicit oracle functions, and each handler is embedded as a
pure function that also returns the list of external actions it performs, in
the order the Go code performs them.  Logging statements are not modelled,
except for the error log emitted by the event loop when the per-message
processor fails (client.go line 533), which is the observable that the
error-containment claim is about.
-/

namespace SlackBotAPI

/-- Model of Go `strings.Split(s, ",")`: splits around every comma;
`Split("", ",")` yields `[""]`, exactly as in Go. -/
def splitAux : List Char → List Char → List String
  | [], acc => [String.mk acc.reverse]
  | c :: rest, acc =>
      if c = ',' then String.mk acc.reverse :: splitAux rest []
      else splitAux rest (c :: acc)

/-- Split a string on commas, Go `strings.Split` semantics. -/
def splitOnComma (s : String) : List String :=
  splitAux s.toList []

/-- Model of Go `strings.TrimSpace` restricted to ASCII whitespace
(space, tab, newline, carriage return); the configuration entries the
claims are about contain no exotic Unicode whitespace. -/
def isSpaceChar (c : Char) : Bool :=
  c == ' ' || c == '\t' || c == '\n' || c == '\r'

/-- Trim leading and trailing whitespace, Go `strings.TrimSpace` model. -/
def trimSpace (s : String) : String :=
  String.mk (((s.toList.dropWhile isSpaceChar).reverse.dropWhile isSpaceChar).reverse)

/-- Configuration record, from `config/config.go` (`Config`, the revision
with the optional channel list and the `Logs` flag, lines 88-103). -/
structure Config where
  slackBotToken : String
  slackAppToken : String
  slackChannelIDs : List String
  slackTargetUsers : List String
  openAIAPIKey : String
  openAIModel : String
  openAIMaxTokens : Nat
  debug : Bool
  logs : Bool
deriving Repr, DecidableEq

/-- Embedding of `config.Load` (config.go lines 106-164).  The environment
is an oracle `String → String`; as in Go, an unset variable reads as `""`.
The four required variables are checked in source order; `SLACK_CHANNEL_IDS`
is not required (the check is commented out in the source); `OPENAI_MODEL`
defaults to `"gpt-4"`; `OPENAI_MAX_TOKENS` is the constant 1024. -/
def Config.Load (env : String → String) : Except String Config :=
  if env "SLACK_BOT_TOKEN" = "" then
    Except.error "SLACK_BOT_TOKEN environment variable is required"
  else if env "SLACK_APP_TOKEN" = "" then
    Except.error "SLACK_APP_TOKEN environment variable is required"
  else if env "SLACK_TARGET_USERS" = "" then
    Except.error "SLACK_TARGET_USERS environment variable is required"
  else if env "OPENAI_API_KEY" = "" then
    Except.error "OPENAI_API_KEY environment variable is required"
  else
    Except.ok
      { slackBotToken := env "SLACK_BOT_TOKEN"
        slackAppToken := env "SLACK_APP_TOKEN"
        slackChannelIDs := splitOnComma (env "SLACK_CHANNEL_IDS")
        slackTargetUsers := splitOnComma (env "SLACK_TARGET_USERS")
        openAIAPIKey := env "OPENAI_API_KEY"
        openAIModel := if env "OPENAI_MODEL" = "" then "gpt-4" else env "OPENAI_MODEL"
        openAIMaxTokens := 1024
        debug := env "DEBUG" == "true"
        logs := env "LOGS" == "true" }

/-- True exactly on the error case of an `Except`. -/
def isError {ε α : Type} : Except ε α → Bool
  | Except.error _ => true
  | Except.ok _ => false

/-- The normalized message event built by the event loop
(client.go lines 473-483, mirroring `slack.MessageEvent`). -/
structure MessageEvent where
  channel : String
  user : String
  text : String
  timestamp : String
  threadTimestamp : String
  botID : String
  subType : String
deriving Repr, DecidableEq

/-- The profile part of a resolved Slack user (only the field the code
reads, `Profile.DisplayName`). -/
structure UserProfile where
  displayName : String
deriving Repr, DecidableEq

/-- A resolved Slack user (`slack.User`), restricted to the fields the
pipeline reads: `ID`, `Name`, `RealName`, `Profile.DisplayName`. -/
structure User where
  id : String
  name : String
  realName : String
  profile : UserProfile
deriving Repr, DecidableEq

/-- The filter-relevant state of the Slack client (client.go lines 19-28):
the two lookup maps are modelled by their key lists. -/
structure Slack.Client where
  channelIDs : List String
  targetUsers : List String
  monitorAllChannels : Bool
deriving Repr, DecidableEq

/-- Build the key set of a Go lookup map from a configured entry list:
each entry is trimmed and empty results are dropped
(client.go lines 53-60 for channels, 82-89 for users). -/
def Slack.trimSet (entries : List String) : List String :=
  (entries.map trimSpace).filter (fun t => t != "")

/-- Go map membership test `s[x]` on the modelled key list. -/
def memberOf (s : List String) (x : String) : Bool :=
  s.contains x

/-- The all-channels sentinel test from `slack.New` (client.go line 47):
`len(cfg.SlackChannelIDs) == 0 || (len == 1 && cfg.SlackChannelIDs[0] == "")`.
Note the untrimmed first element is compared with the empty string. -/
def Slack.monitorAllOf (ids : List String) : Bool :=
  ids.length == 0 || (ids.length == 1 && ids.getD 0 "" == "")

/-- Embedding of the filter-relevant part of `slack.New`
(client.go lines 46-61, 81-89, 107-116): the channel map is built only
when the sentinel is not selected (it stays `nil`, here `[]`, otherwise),
the user map is always built. -/
def Slack.New (cfg : Config) : Slack.Client :=
  let monitorAll := Slack.monitorAllOf cfg.slackChannelIDs
  { channelIDs := if monitorAll then [] else Slack.trimSet cfg.slackChannelIDs
    targetUsers := Slack.trimSet cfg.slackTargetUsers
    monitorAllChannels := monitorAll }

/-- An external action performed by the pipeline, in the order the Go code
performs it: socket-mode acknowledgment (`c.socketClient.Ack`, tagged with
the request envelope it acknowledges), a user-info lookup
(`c.api.GetUserInfoContext`), the OpenAI transformation call, a top-level
channel post (`PostMessage`), a threaded post (`CreateThread`), and the
event loop's error log for a failed processor run. -/
inductive Action where
  | ack (reqId : Nat)
  | getUserInfo (userID : String)
  | translate (text : String) (username : String)
  | postMessage (channelID : String) (text : String)
  | createThread (channelID : String) (threadTS : String) (text : String)
  | logError (message : String)
deriving Repr, DecidableEq

/-- Deterministic oracles for the external collaborators the orchestrator
calls: Slack user resolution, the OpenAI transformation (text, speaker
label), and message posting (returns channel and timestamp as in Go). -/
structure World where
  userInfo : String → Except String User
  translateResult : String → String → Except String String
  postResult : String → String → Except String (String × String)

/-- Embedding of `getDisplayName` (bot.go lines 439-449): fallback order
`Profile.DisplayName`, then `Name`, then `RealName`. -/
def getDisplayName (user : User) : String :=
  if user.profile.displayName != "" then user.profile.displayName
  else if user.name != "" then user.name
  else user.realName

/-- Embedding of the per-message processor closure passed to
`ProcessEvents` by `processMessages` (bot.go lines 373-434, the revision
using `getDisplayName` and a direct channel post): resolve the author,
translate with the display name as speaker label, format the reply header
and post it to the originating channel; the first failing step aborts with
a wrapped error.  Returns the list of external calls made and the closure's
result. -/
def Bot.handleMessage (w : World) (event : MessageEvent) :
    List Action × Except String Unit :=
  match w.userInfo event.user with
  | Except.error e =>
      ([Action.getUserInfo event.user],
       Except.error ("error getting user info: " ++ e))
  | Except.ok user =>
      let displayName := getDisplayName user
      match w.translateResult event.text displayName with
      | Except.error e =>
          ([Action.getUserInfo event.user, Action.translate event.text displayName],
           Except.error ("error translating message: " ++ e))
      | Except.ok translatedText =>
          let response := "*" ++ displayName ++ "'s message in Gen Alpha:*\n" ++ translatedText
          match w.postResult event.channel response with
          | Except.error e =>
              ([Action.getUserInfo event.user, Action.translate event.text displayName,
                Action.postMessage event.channel response],
               Except.error ("error posting message: " ++ e))
          | Except.ok _ =>
              ([Action.getUserInfo event.user, Action.translate event.text displayName,
                Action.postMessage event.channel response],
               Except.ok ())

/-- Outcome of the event loop's checks on one normalized message, one
constructor per early `continue` in client.go lines 489-526, plus
`dispatched` for the path that reaches the processor call on line 532. -/
inductive Decision where
  | rejectedBot
  | rejectedChannel
  | resolveFailed (e : String)
  | rejectedUser
  | dispatched
deriving Repr, DecidableEq

/-- Embedding of the message checks of `ProcessEvents`
(client.go lines 489-532), in source order: the bot/anti-loopback check
(line 489), the channel check (line 499), the author resolution
(line 511, rejecting on failure), and the user check (line 523). -/
def Slack.classifyMessage (c : Slack.Client) (w : World) (m : MessageEvent) :
    Decision :=
  if m.botID != "" || m.subType == "bot_message" then Decision.rejectedBot
  else if !c.monitorAllChannels && !(memberOf c.channelIDs m.channel) then
    Decision.rejectedChannel
  else
    match w.userInfo m.user with
    | Except.error e => Decision.resolveFailed e
    | Except.ok user =>
        if !(memberOf c.targetUsers user.name) && !(memberOf c.targetUsers m.user) then
          Decision.rejectedUser
        else Decision.dispatched

/-- The external calls the event loop makes for one normalized message
(client.go lines 489-536): rejected messages make no further calls beyond
the author lookup the rejection required; a failed author lookup is logged
(line 513) and the message dropped; a dispatched message runs the
processor, and a processor error is logged (line 533) while the loop
continues.  (`w.userInfo` models the `c.GetUserInfo` wrapper, whose error
— already carrying the `error getting user info:` prefix from
client.go line 557 — is what line 513 logs.) -/
def Slack.messageTrace (c : Slack.Client) (w : World) (m : MessageEvent) :
    List Action :=
  match Slack.classifyMessage c w m with
  | Decision.rejectedBot => []
  | Decision.rejectedChannel => []
  | Decision.resolveFailed e => [Action.getUserInfo m.user, Action.logError e]
  | Decision.rejectedUser => [Action.getUserInfo m.user]
  | Decision.dispatched =>
      match Bot.handleMessage w m with
      | (acts, Except.error e) =>
          Action.getUserInfo m.user :: (acts ++ [Action.logError e])
      | (acts, Except.ok _) => Action.getUserInfo m.user :: acts

/-- The inner event of an Events API callback envelope: a message event
(inner type `"message"` whose data cast succeeded), a failed cast of a
`"message"` inner event, or some other inner event type. -/
inductive InnerEvent where
  | message (m : MessageEvent)
  | messageCastFailed
  | otherInner (t : String)
deriving Repr, DecidableEq

/-- The parsed payload of a socket-mode Events API envelope
(client.go lines 445-456): the `evt.Data` cast may fail, and the event is
either a callback event or some other Events API event type. -/
inductive APIPayload where
  | castFailure
  | callback (inner : InnerEvent)
  | nonCallback (t : String)
deriving Repr, DecidableEq

/-- A socket-mode event, one constructor per case of the `switch` in
`ProcessEvents` (client.go lines 426-544).  An Events API payload event
carries the request envelope id that `Ack` acknowledges. -/
inductive SocketEvent where
  | connecting
  | connectionError
  | connected
  | hello
  | disconnect
  | eventsAPI (reqId : Nat) (payload : APIPayload)
  | other (t : String)
deriving Repr, DecidableEq

/-- Whether a socket-mode event is an Events API payload event. -/
def SocketEvent.isPayload : SocketEvent → Bool
  | SocketEvent.eventsAPI _ _ => true
  | _ => false

/-- The external calls made for one socket-mode event
(client.go lines 426-545): control events are logged only; an Events API
event is acknowledged first (line 439) and then parsed and, when it is a
callback message event, run through the message checks and processor. -/
def Slack.handleSocketEvent (c : Slack.Client) (w : World) :
    SocketEvent → List Action
  | SocketEvent.eventsAPI reqId payload =>
      Action.ack reqId ::
        (match payload with
         | APIPayload.castFailure => []
         | APIPayload.nonCallback _ => []
         | APIPayload.callback InnerEvent.messageCastFailed => []
         | APIPayload.callback (InnerEvent.otherInner _) => []
         | APIPayload.callback (InnerEvent.message m) => Slack.messageTrace c w m)
  | _ => []

/-- The receive loop of `ProcessEvents` (client.go line 421,
`for evt := range c.socketClient.Events`): the Go loop body contains no
spawn, so each event's handling — including the processor call on
line 532 — runs to completion before the next event is pulled; the model
is the corresponding sequential concatenation of per-event traces. -/
def Slack.ProcessEvents (c : Slack.Client) (w : World) :
    List SocketEvent → List Action
  | [] => []
  | evt :: rest =>
      Slack.handleSocketEvent c w evt ++ Slack.ProcessEvents c w rest

/-- Pass condition of the channel rule (negation of the rejection test on
client.go line 499). -/
def Slack.channelRuleOK (c : Slack.Client) (m : MessageEvent) : Bool :=
  c.monitorAllChannels || memberOf c.channelIDs m.channel

/-- Pass condition of the user rule (negation of the rejection test on
client.go line 523): resolved username or raw author id in the allow set. -/
def Slack.userRuleOK (c : Slack.Client) (user : User) (m : MessageEvent) : Bool :=
  memberOf c.targetUsers user.name || memberOf c.targetUsers m.user

/-- Pass condition of the anti-loopback rule (negation of the rejection
test on client.go line 489). -/
def Slack.botRuleOK (m : MessageEvent) : Bool :=
  !(m.botID != "" || m.subType == "bot_message")

/-- Recognizes the transformation-call action. -/
def Action.isTranslateCall : Action → Bool
  | Action.translate _ _ => true
  | _ => false

/-- Recognizes the top-level channel post action. -/
def Action.isPost : Action → Bool
  | Action.postMessage _ _ => true
  | _ => false

/-- Recognizes the threaded-reply post action. -/
def Action.isThread : Action → Bool
  | Action.createThread _ _ _ => true
  | _ => false

/-- Recognizes the acknowledgment action. -/
def Action.isAck : Action → Bool
  | Action.ack _ => true
  | _ => false

/-- Number of acknowledgments in a trace. -/
def countAcks (l : List Action) : Nat :=
  (l.filter Action.isAck).length

/-- A chat message of the OpenAI request (openai/client.go lines 29-32). -/
structure ChatMessage where
  role : String
  content : String
deriving Repr, DecidableEq

/-- The OpenAI chat-completion request body (openai/client.go lines 35-40).
The temperature is the fixed rational 7/10 from line 107. -/
structure ChatCompletionRequest where
  model : String
  messages : List ChatMessage
  maxTokens : Nat
  temperature : Rat
deriving Repr, DecidableEq

/-- One returned choice (openai/client.go lines 47-51). -/
structure Choice where
  index : Nat
  message : ChatMessage
  finishReason : String
deriving Repr, DecidableEq

/-- The OpenAI chat-completion response body (openai/client.go lines 43-52). -/
structure ChatCompletionResponse where
  id : String
  object : String
  created : Int
  choices : List Choice
deriving Repr, DecidableEq

/-- Outcome of the single HTTP round trip: either the request could not be
completed (`c.client.Do` error or a body-read error, openai/client.go
lines 136-151), or a response with a status code and a body. -/
inductive HTTPOutcome where
  | failure (e : String)
  | response (statusCode : Nat) (body : String)
deriving Repr, DecidableEq

/-- The typed error cases of the transformation call, one constructor per
error return of `TranslateToGenAlpha` that depends on the remote service
(openai/client.go lines 138, 155, 161, 166).  The `apiError` constructor
carries the response body verbatim together with the status code, as the
Go error string does.  The marshal and request-construction error returns
on lines 113 and 123 are unreachable for this fixed request shape and
constant URL and are not modelled. -/
inductive TranslateError where
  | requestFailed (e : String)
  | apiError (body : String) (statusCode : Nat)
  | decodeFailed
  | noChoices
deriving Repr, DecidableEq

/-- The OpenAI client state (openai/client.go lines 17-26, the fields the
call reads). -/
structure OpenAI.Client where
  apiKey : String
  model : String
  maxTokens : Nat
deriving Repr, DecidableEq

/-- Embedding of `openai.New` (openai/client.go lines 55-73). -/
def OpenAI.New (cfg : Config) : OpenAI.Client :=
  { apiKey := cfg.openAIAPIKey
    model := cfg.openAIModel
    maxTokens := cfg.openAIMaxTokens }

/-- The fixed system instruction (openai/client.go line 95). -/
def OpenAI.systemInstruction : String :=
  "You are a Gen Alpha language translator. Your job is to translate normal messages into Gen Alpha slang and expressions. Be creative, use current youth trends, emojis, and make it funny but still understandable."

/-- The user prompt built from the message and the speaker label
(openai/client.go lines 83-86). -/
def OpenAI.buildPrompt (message username : String) : String :=
  "Translate the following message to Gen Alpha slang/language (TikTok style, with emojis, internet abbreviations, and current youth trends). Make it humorous but keep the original meaning. The message is from " ++ username ++ ": \"" ++ message ++ "\""

/-- The single request sent by the transformation call
(openai/client.go lines 92-108). -/
def OpenAI.buildRequest (c : OpenAI.Client) (message username : String) :
    ChatCompletionRequest :=
  { model := c.model
    messages :=
      [ { role := "system", content := OpenAI.systemInstruction },
        { role := "user", content := OpenAI.buildPrompt message username } ]
    maxTokens := c.maxTokens
    temperature := 7 / 10 }

/-- Embedding of `TranslateToGenAlpha` (openai/client.go lines 76-178).
The HTTP round trip is the oracle `send` (JSON encoding of the request is
abstracted away: `send` receives the structured request), and JSON decoding
of the body is the oracle `decode` (`json.Unmarshal`, `none` on failure).
The second component counts the HTTP attempts made: the code sends exactly
once and never retries, so it is 1 on every path. -/
def OpenAI.TranslateCall (send : ChatCompletionRequest → HTTPOutcome)
    (decode : String → Option ChatCompletionResponse)
    (c : OpenAI.Client) (message username : String) :
    Except TranslateError String × Nat :=
  match send (OpenAI.buildRequest c message username) with
  | HTTPOutcome.failure e => (Except.error (TranslateError.requestFailed e), 1)
  | HTTPOutcome.response statusCode body =>
      if statusCode != 200 then
        (Except.error (TranslateError.apiError body statusCode), 1)
      else
        match decode body with
        | none => (Except.error TranslateError.decodeFailed, 1)
        | some completionResponse =>
            match completionResponse.choices with
            | [] => (Except.error TranslateError.noChoices, 1)
            | choice :: _ => (Except.ok choice.message.content, 1)

/-- The result of the transformation call. -/
def OpenAI.TranslateToGenAlpha (send : ChatCompletionRequest → HTTPOutcome)
    (decode : String → Option ChatCompletionResponse)
    (c : OpenAI.Client) (message username : String) :
    Except TranslateError String :=
  (OpenAI.TranslateCall send decode c message username).1

/-- First non-empty entry of a list of strings, empty when there is none.
Stated from the specification's words ("first non-empty of displayName,
username, realName") to be compared with the source-derived
`getDisplayName`. -/
def firstNonEmpty : List String → String
  | [] => ""
  | x :: xs => if x != "" then x else firstNonEmpty xs

/-! Concrete fixtures, taken from the specification's end-to-end and
rejection scenarios: channel allow-list `{"C1"}`, user allow-list
`{"alice", "U999"}`, author `U999` resolving to username `alice`. -/

/-- A concrete configuration with channels `["C1"]` and users
`["alice", "U999"]`. -/
def sampleConfig : Config :=
  { slackBotToken := "xoxb-1"
    slackAppToken := "xapp-1"
    slackChannelIDs := ["C1"]
    slackTargetUsers := ["alice", "U999"]
    openAIAPIKey := "sk-1"
    openAIModel := "gpt-4"
    openAIMaxTokens := 1024
    debug := false
    logs := false }

/-- The Slack client built from `sampleConfig`. -/
def sampleClient : Slack.Client := Slack.New sampleConfig

/-- The resolved author `U999`, username `alice`, with an empty profile
display name so the fallback selects the username. -/
def alice : User :=
  { id := "U999", name := "alice", realName := "Alice A"
    profile := { displayName := "" } }

/-- A concrete world: every author resolves to `alice`; the transformation
succeeds with `"henlo world fr fr"` except on the text `"fail me"`, where
it fails with `"boom"`; posting succeeds. -/
def sampleWorld : World :=
  { userInfo := fun userID =>
      if userID == "U999" then Except.ok alice
      else
        Except.ok
          { id := userID, name := "stranger", realName := "Stran Ger"
            profile := { displayName := "" } }
    translateResult := fun text _ =>
      if text == "fail me" then Except.error "boom"
      else Except.ok "henlo world fr fr"
    postResult := fun _ _ => Except.ok ("C1", "1700000000.000100") }

/-- The end-to-end scenario message: `"hello world"` from `U999` in `C1`. -/
def helloMsg : MessageEvent :=
  { channel := "C1", user := "U999", text := "hello world"
    timestamp := "1700000000.000001", threadTimestamp := ""
    botID := "", subType := "" }

/-- A message the transformation fails on. -/
def failMsg : MessageEvent :=
  { channel := "C1", user := "U999", text := "fail me"
    timestamp := "1700000000.000002", threadTimestamp := ""
    botID := "", subType := "" }

/-- The rejection-scenario message: author `U111`, not in the allow-list. -/
def strangerMsg : MessageEvent :=
  { channel := "C1", user := "U111", text := "hi"
    timestamp := "1700000000.000003", threadTimestamp := ""
    botID := "", subType := "" }

/-- A bot-originated message (bot marker set). -/
def botMsg : MessageEvent :=
  { channel := "C1", user := "U999", text := "beep"
    timestamp := "1700000000.000004", threadTimestamp := ""
    botID := "B042", subType := "" }

/-- The payload event delivering `helloMsg`, request envelope 1. -/
def helloEvt : SocketEvent :=
  SocketEvent.eventsAPI 1 (APIPayload.callback (InnerEvent.message helloMsg))

/-- The payload event delivering `botMsg`, request envelope 2. -/
def botEvt : SocketEvent :=
  SocketEvent.eventsAPI 2 (APIPayload.callback (InnerEvent.message botMsg))

/-- The payload event delivering `failMsg`, request envelope 3. -/
def failEvt : SocketEvent :=
  SocketEvent.eventsAPI 3 (APIPayload.callback (InnerEvent.message failMsg))

/-- A world whose author lookup always fails (the `c.GetUserInfo` wrapper
returns its prefixed error), for exercising the resolution-failure path. -/
def lookupFailWorld : World :=
  { userInfo := fun _ =>
      Except.error "error getting user info: user_not_found"
    translateResult := fun _ _ => Except.ok "unused"
    postResult := fun _ _ => Except.ok ("C1", "1700000000.000200") }

/-- A complete environment with the channel list and the model name unset. -/
def goodEnv : String → String := fun k =>
  if k = "SLACK_BOT_TOKEN" then "xoxb-1"
  else if k = "SLACK_APP_TOKEN" then "xapp-1"
  else if k = "SLACK_TARGET_USERS" then "alice,U999"
  else if k = "OPENAI_API_KEY" then "sk-1"
  else ""

/-- The configuration `Config.Load goodEnv` produces. -/
def goodCfgLoaded : Config :=
  { slackBotToken := "xoxb-1"
    slackAppToken := "xapp-1"
    slackChannelIDs := [""]
    slackTargetUsers := ["alice", "U999"]
    openAIAPIKey := "sk-1"
    openAIModel := "gpt-4"
    openAIMaxTokens := 1024
    debug := false
    logs := false }

/-- A configuration whose channel list is two empty entries: not the
single-empty-string shape the sentinel test looks for. -/
def doubleEmptyConfig : Config :=
  { slackBotToken := "xoxb-1"
    slackAppToken := "xapp-1"
    slackChannelIDs := ["", ""]
    slackTargetUsers := ["alice"]
    openAIAPIKey := "sk-1"
    openAIModel := "gpt-4"
    openAIMaxTokens := 1024
    debug := false
    logs := false }

/-! Claim theorems. -/

/-- C1: for a message whose author resolves, the event loop hands the
message to the orchestrator's processor exactly when the channel rule, the
user rule and the anti-loopback rule all pass; any failing rule rejects
(`Decision.dispatched` is, by `Slack.messageTrace`, exactly the branch that
invokes the processor). -/
theorem c1_filter_admits_iff_rules_pass (c : Slack.Client) (w : World)
    (m : MessageEvent) (user : User)
    (hres : w.userInfo m.user = Except.ok user) :
    Slack.classifyMessage c w m = Decision.dispatched ↔
      (Slack.channelRuleOK c m = true ∧ Slack.userRuleOK c user m = true ∧
        Slack.botRuleOK m = true) := by
  unfold Slack.classifyMessage Slack.channelRuleOK Slack.userRuleOK Slack.botRuleOK
  rw [hres]
  cases hb : m.botID != "" <;> cases hs : m.subType == "bot_message" <;>
    cases hmon : c.monitorAllChannels <;>
    cases hch : memberOf c.channelIDs m.channel <;>
    cases hun : memberOf c.targetUsers user.name <;>
    cases hui : memberOf c.targetUsers m.user <;>
    simp [hb, hs, hmon, hch, hun, hui]

/-- C1 witness: the end-to-end scenario message is dispatched, and the
theorem's hypotheses hold at this concrete input. -/
theorem c1_witness :
    Slack.classifyMessage sampleClient sampleWorld helloMsg = Decision.dispatched :=
  (c1_filter_admits_iff_rules_pass sampleClient sampleWorld helloMsg alice rfl).mpr
    (by decide)

/-- C2: the effective display name is the first non-empty of the profile
display name, the username and the real name; with
`displayName = ""`, `username = "bob"`, `realName = "Bob Smith"` it is
`"bob"`, and with only `realName = "Bob Smith"` non-empty it is
`"Bob Smith"`.  (`getDisplayName` is the label handed to the
transformation call and to the reply header in `Bot.handleMessage`.) -/
theorem c2_display_name_fallback :
    (∀ user : User,
        getDisplayName user =
          firstNonEmpty [user.profile.displayName, user.name, user.realName]) ∧
    getDisplayName
      { id := "U1", name := "bob", realName := "Bob Smith"
        profile := { displayName := "" } } = "bob" ∧
    getDisplayName
      { id := "U1", name := "", realName := "Bob Smith"
        profile := { displayName := "" } } = "Bob Smith" := by
  refine ⟨fun user => ?_, by decide, by decide⟩
  by_cases hd : user.profile.displayName = "" <;>
    by_cases hn : user.name = "" <;>
    by_cases hr : user.realName = "" <;>
    simp [getDisplayName, firstNonEmpty, hd, hn, hr]

/-- C6: a message the event loop rejects leads to zero transformation
calls and zero publish calls (neither a top-level post nor a threaded
reply) for that message. -/
theorem c6_rejected_makes_no_calls (c : Slack.Client) (w : World)
    (m : MessageEvent)
    (hrej : Slack.classifyMessage c w m ≠ Decision.dispatched) :
    (Slack.messageTrace c w m).filter Action.isTranslateCall = [] ∧
    (Slack.messageTrace c w m).filter Action.isPost = [] ∧
    (Slack.messageTrace c w m).filter Action.isThread = [] := by
  unfold Slack.messageTrace
  cases hcl : Slack.classifyMessage c w m <;>
    simp_all [Action.isTranslateCall, Action.isPost, Action.isThread]

/-- C6 witness: the rejection-scenario message (author `U111`, in neither
allow-set form) is rejected and produces no transformation or publish
calls. -/
theorem c6_witness :
    (Slack.messageTrace sampleClient sampleWorld strangerMsg).filter
        Action.isTranslateCall = [] ∧
    (Slack.messageTrace sampleClient sampleWorld strangerMsg).filter
        Action.isPost = [] ∧
    (Slack.messageTrace sampleClient sampleWorld strangerMsg).filter
        Action.isThread = [] :=
  c6_rejected_makes_no_calls sampleClient sampleWorld strangerMsg (by decide)

/-- Helper: the orchestrator's handler performs no acknowledgment (the
`Ack` call exists only in the event loop). -/
theorem isAck_false_mem_handleMessage (w : World) (m : MessageEvent) :
    ∀ a ∈ (Bot.handleMessage w m).1, Action.isAck a = false := by
  unfold Bot.handleMessage
  rcases hu : w.userInfo m.user with e | user
  · simp [Action.isAck]
  · rcases ht : w.translateResult m.text (getDisplayName user) with e | t
    · simp [ht, Action.isAck]
    · rcases hp : w.postResult m.channel
        ("*" ++ getDisplayName user ++ "'s message in Gen Alpha:*\n" ++ t) with e | r <;>
        simp [ht, hp, Action.isAck]

/-- Helper: the per-message checks and processor perform no
acknowledgment. -/
theorem countAcks_messageTrace (c : Slack.Client) (w : World) (m : MessageEvent) :
    countAcks (Slack.messageTrace c w m) = 0 := by
  simp only [countAcks, List.length_eq_zero, List.filter_eq_nil_iff]
  intro a ha
  unfold Slack.messageTrace at ha
  cases hcl : Slack.classifyMessage c w m <;> rw [hcl] at ha
  case rejectedBot => simp at ha
  case rejectedChannel => simp at ha
  case resolveFailed e =>
    simp at ha
    rcases ha with rfl | rfl <;> simp [Action.isAck]
  case rejectedUser =>
    simp at ha
    subst ha
    simp [Action.isAck]
  case dispatched =>
    rcases hbm : Bot.handleMessage w m with ⟨acts, res⟩
    rw [hbm] at ha
    have hmem := isAck_false_mem_handleMessage w m
    rw [hbm] at hmem
    cases res with
    | error e =>
      simp at ha
      rcases ha with rfl | ha | rfl
      · simp [Action.isAck]
      · simpa using hmem a ha
      · simp [Action.isAck]
    | ok u =>
      simp at ha
      rcases ha with rfl | ha
      · simp [Action.isAck]
      · simpa using hmem a ha

/-- C7: an Events API payload event is acknowledged synchronously first —
its trace begins with the acknowledgment of its own request envelope and
contains no further acknowledgment — and a non-payload event is never
acknowledged through this path. -/
theorem c7_ack_exactly_once_first (c : Slack.Client) (w : World)
    (evt : SocketEvent) :
    (∀ reqId payload, evt = SocketEvent.eventsAPI reqId payload →
        ∃ tail, Slack.handleSocketEvent c w evt = Action.ack reqId :: tail ∧
          countAcks tail = 0) ∧
    (evt.isPayload = false → countAcks (Slack.handleSocketEvent c w evt) = 0) := by
  constructor
  · rintro reqId payload rfl
    rcases payload with _ | inner | t
    · exact ⟨[], rfl, rfl⟩
    · rcases inner with m | _ | t
      · exact ⟨Slack.messageTrace c w m, rfl, countAcks_messageTrace c w m⟩
      · exact ⟨[], rfl, rfl⟩
      · exact ⟨[], rfl, rfl⟩
    · exact ⟨[], rfl, rfl⟩
  · intro h
    cases evt <;> simp_all [SocketEvent.isPayload, Slack.handleSocketEvent, countAcks]

/-- C7 witness: at the concrete payload event delivering the end-to-end
message, the trace starts with its acknowledgment and holds exactly that
one; the concrete control event `hello` is never acknowledged. -/
theorem c7_witness :
    (∃ tail,
        Slack.handleSocketEvent sampleClient sampleWorld helloEvt =
          Action.ack 1 :: tail ∧ countAcks tail = 0) ∧
    countAcks (Slack.handleSocketEvent sampleClient sampleWorld SocketEvent.hello) = 0 :=
  ⟨(c7_ack_exactly_once_first sampleClient sampleWorld helloEvt).1 1
      (APIPayload.callback (InnerEvent.message helloMsg)) rfl,
   (c7_ack_exactly_once_first sampleClient sampleWorld SocketEvent.hello).2 rfl⟩

/-- C3: when the author resolves and the transformation succeeds with text
`t`, the orchestrator's handler performs exactly one publish call, a
top-level post to the message's originating channel whose text is the
header `*<effectiveDisplayName>'s message in Gen Alpha:*`, a newline, and
`t`; it performs no threaded reply. -/
theorem c3_publish_header_and_text (w : World) (m : MessageEvent)
    (user : User) (t : String)
    (hres : w.userInfo m.user = Except.ok user)
    (htr : w.translateResult m.text (getDisplayName user) = Except.ok t) :
    (Bot.handleMessage w m).1.filter Action.isPost =
      [Action.postMessage m.channel
        ("*" ++ getDisplayName user ++ "'s message in Gen Alpha:*\n" ++ t)] ∧
    (Bot.handleMessage w m).1.filter Action.isThread = [] := by
  unfold Bot.handleMessage
  rcases hp : w.postResult m.channel
      ("*" ++ getDisplayName user ++ "'s message in Gen Alpha:*\n" ++ t) with e | r <;>
    simp [hres, htr, hp, Action.isPost, Action.isThread]

/-- C3 witness: on the end-to-end scenario the handler posts exactly
`*alice's message in Gen Alpha:*` followed by a newline and
`henlo world fr fr` to channel `C1`, with no threaded reply. -/
theorem c3_witness :
    (Bot.handleMessage sampleWorld helloMsg).1.filter Action.isPost =
      [Action.postMessage "C1"
        "*alice's message in Gen Alpha:*\nhenlo world fr fr"] ∧
    (Bot.handleMessage sampleWorld helloMsg).1.filter Action.isThread = [] :=
  c3_publish_header_and_text sampleWorld helloMsg alice
    "henlo world fr fr" rfl rfl

/-- C4: every per-message error is contained to that message.  The loop
over `[A-event, B-event]` is unconditionally the concatenation of A's
handling and B's handling; an author-resolution failure ends A's handling
with the lookup error logged (client.go line 513); a processor error —
transformation or publish failure — ends A's handling with that error
logged (client.go line 533); and B's handling is identical to what it
would be had B arrived alone.  All embedded functions are total, so no
error path escapes a message's own handling. -/
theorem c4_per_message_error_isolation (c : Slack.Client) (w : World)
    (eB : SocketEvent) (rA : Nat) (mA : MessageEvent) (e : String) :
    (Slack.ProcessEvents c w
        [SocketEvent.eventsAPI rA (APIPayload.callback (InnerEvent.message mA)), eB] =
      (Action.ack rA :: Slack.messageTrace c w mA) ++
        Slack.handleSocketEvent c w eB) ∧
    (Slack.classifyMessage c w mA = Decision.resolveFailed e →
      Slack.messageTrace c w mA =
        [Action.getUserInfo mA.user, Action.logError e]) ∧
    (Slack.classifyMessage c w mA = Decision.dispatched →
      (Bot.handleMessage w mA).2 = Except.error e →
      Slack.messageTrace c w mA =
        Action.getUserInfo mA.user ::
          ((Bot.handleMessage w mA).1 ++ [Action.logError e])) ∧
    Slack.ProcessEvents c w [eB] = Slack.handleSocketEvent c w eB := by
  refine ⟨?_, ?_, ?_, ?_⟩
  · simp [Slack.ProcessEvents, Slack.handleSocketEvent]
  · intro hres
    unfold Slack.messageTrace
    rw [hres]
  · intro hdisp herr
    unfold Slack.messageTrace
    rcases hbm : Bot.handleMessage w mA with ⟨acts, res⟩
    rw [hbm] at herr
    simp at herr
    subst herr
    simp [hdisp]
  · simp [Slack.ProcessEvents]

/-- C4 witness: with a failing author lookup, `helloMsg`'s handling is the
lookup plus the logged lookup error; with `failMsg` the transformation
fails with `boom` and its handling ends with the wrapped error logged;
and a subsequent `helloEvt` is still handled exactly as when alone. -/
theorem c4_witness :
    Slack.messageTrace sampleClient lookupFailWorld helloMsg =
      [Action.getUserInfo "U999",
       Action.logError "error getting user info: user_not_found"] ∧
    Slack.messageTrace sampleClient sampleWorld failMsg =
      Action.getUserInfo "U999" ::
        ((Bot.handleMessage sampleWorld failMsg).1 ++
          [Action.logError "error translating message: boom"]) ∧
    Slack.ProcessEvents sampleClient sampleWorld [failEvt, helloEvt] =
      (Action.ack 3 :: Slack.messageTrace sampleClient sampleWorld failMsg) ++
        Slack.handleSocketEvent sampleClient sampleWorld helloEvt ∧
    Slack.ProcessEvents sampleClient sampleWorld [helloEvt] =
      Slack.handleSocketEvent sampleClient sampleWorld helloEvt :=
  ⟨(c4_per_message_error_isolation sampleClient lookupFailWorld helloEvt 1 helloMsg
      "error getting user info: user_not_found").2.1 (by decide),
   (c4_per_message_error_isolation sampleClient sampleWorld helloEvt 3 failMsg
      "error translating message: boom").2.2.1 (by decide) rfl,
   (c4_per_message_error_isolation sampleClient sampleWorld helloEvt 3 failMsg
      "error translating message: boom").1,
   (c4_per_message_error_isolation sampleClient sampleWorld helloEvt 3 failMsg
      "error translating message: boom").2.2.2⟩

/-- Helper: when the author resolves and the transformation succeeds, the
handler's action list contains the transformation call. -/
theorem translate_mem_handleMessage (w : World) (m : MessageEvent)
    (user : User) (t : String)
    (hres : w.userInfo m.user = Except.ok user)
    (htr : w.translateResult m.text (getDisplayName user) = Except.ok t) :
    Action.translate m.text (getDisplayName user) ∈ (Bot.handleMessage w m).1 := by
  unfold Bot.handleMessage
  rcases hp : w.postResult m.channel
      ("*" ++ getDisplayName user ++ "'s message in Gen Alpha:*\n" ++ t) with e | r <;>
    simp [hres, htr, hp]

/-- Helper: a dispatched message's trace contains its transformation
call. -/
theorem translate_mem_messageTrace (c : Slack.Client) (w : World)
    (m : MessageEvent) (user : User) (t : String)
    (hdisp : Slack.classifyMessage c w m = Decision.dispatched)
    (hres : w.userInfo m.user = Except.ok user)
    (htr : w.translateResult m.text (getDisplayName user) = Except.ok t) :
    Action.translate m.text (getDisplayName user) ∈ Slack.messageTrace c w m := by
  unfold Slack.messageTrace
  rw [hdisp]
  rcases hbm : Bot.handleMessage w m with ⟨acts, res⟩
  have hmem := translate_mem_handleMessage w m user t hres htr
  rw [hbm] at hmem
  cases res <;> simp [hmem]

/-- C8 (amended): dispatch is synchronous.  The receive loop of
`ProcessEvents` runs each admitted message's handling — including its
transformation call — to completion before pulling and acknowledging the
next stream event: for a dispatched message delivered as event 1 and any
payload event 2, the serialized trace places event 2's acknowledgment
after a prefix that already contains event 1's transformation call. -/
theorem c8_dispatch_is_synchronous (c : Slack.Client) (w : World)
    (m : MessageEvent) (r1 r2 : Nat) (p2 : APIPayload) (user : User) (t : String)
    (hres : w.userInfo m.user = Except.ok user)
    (hdisp : Slack.classifyMessage c w m = Decision.dispatched)
    (htr : w.translateResult m.text (getDisplayName user) = Except.ok t) :
    ∃ pre rest,
      Slack.ProcessEvents c w
          [SocketEvent.eventsAPI r1 (APIPayload.callback (InnerEvent.message m)),
           SocketEvent.eventsAPI r2 p2] =
        pre ++ Action.ack r2 :: rest ∧
      Action.translate m.text (getDisplayName user) ∈ pre := by
  refine ⟨Action.ack r1 :: Slack.messageTrace c w m,
    (Slack.handleSocketEvent c w (SocketEvent.eventsAPI r2 p2)).tail, ?_, ?_⟩
  · simp [Slack.ProcessEvents, Slack.handleSocketEvent]
  · exact List.mem_cons_of_mem _
      (translate_mem_messageTrace c w m user t hdisp hres htr)

/-- C8 witness: the amended theorem at the concrete end-to-end scenario. -/
theorem c8_witness :
    ∃ pre rest,
      Slack.ProcessEvents sampleClient sampleWorld [helloEvt, botEvt] =
        pre ++ Action.ack 2 :: rest ∧
      Action.translate "hello world" "alice" ∈ pre :=
  c8_dispatch_is_synchronous sampleClient sampleWorld helloMsg 1 2
    (APIPayload.callback (InnerEvent.message botMsg)) alice
    "henlo world fr fr" rfl (by decide) rfl

/-- C8 counterexample: the claim's fire-and-forget property fails on the
code.  The claim requires that a transformation call for message N not
delay the receive loop's acknowledgment of the next independent event
N+1, i.e. that event 2's acknowledgment occur in the loop's observable
order before event 1's transformation call completes.  On the concrete
stream `[helloEvt, botEvt]` the code's trace (computed in the first
conjunct) is fully serialized — `processor` is invoked inline at
client.go line 532, with no per-message spawn — so the transformation call
of event 1 precedes the acknowledgment of event 2, refuting the claimed
ordering. -/
theorem c8_counterexample :
    Slack.ProcessEvents sampleClient sampleWorld [helloEvt, botEvt] =
      [Action.ack 1, Action.getUserInfo "U999", Action.getUserInfo "U999",
       Action.translate "hello world" "alice",
       Action.postMessage "C1" "*alice's message in Gen Alpha:*\nhenlo world fr fr",
       Action.ack 2] ∧
    ¬ (List.findIdx (fun a => a == Action.ack 2)
          (Slack.ProcessEvents sampleClient sampleWorld [helloEvt, botEvt]) <
        List.findIdx Action.isTranslateCall
          (Slack.ProcessEvents sampleClient sampleWorld [helloEvt, botEvt])) := by
  constructor
  · decide
  · decide

/-- C5: the transformation call returns an error exactly when the HTTP
round trip cannot be completed, the response status is not 200 (the body
kept verbatim in the error), the body does not decode, or the decoded
response has zero choices; otherwise it returns the content of the first
choice; and on every path it makes exactly one HTTP attempt (no retry). -/
theorem c5_transform_result_cases (send : ChatCompletionRequest → HTTPOutcome)
    (decode : String → Option ChatCompletionResponse)
    (c : OpenAI.Client) (message username : String) :
    ((∃ t, OpenAI.TranslateToGenAlpha send decode c message username = Except.ok t) ↔
      (∃ body resp,
        send (OpenAI.buildRequest c message username) = HTTPOutcome.response 200 body ∧
        decode body = some resp ∧ resp.choices ≠ [])) ∧
    (∀ e, send (OpenAI.buildRequest c message username) = HTTPOutcome.failure e →
      OpenAI.TranslateToGenAlpha send decode c message username =
        Except.error (TranslateError.requestFailed e)) ∧
    (∀ s body, send (OpenAI.buildRequest c message username) = HTTPOutcome.response s body →
      s ≠ 200 →
      OpenAI.TranslateToGenAlpha send decode c message username =
        Except.error (TranslateError.apiError body s)) ∧
    (∀ body, send (OpenAI.buildRequest c message username) = HTTPOutcome.response 200 body →
      decode body = none →
      OpenAI.TranslateToGenAlpha send decode c message username =
        Except.error TranslateError.decodeFailed) ∧
    (∀ body resp, send (OpenAI.buildRequest c message username) = HTTPOutcome.response 200 body →
      decode body = some resp → resp.choices = [] →
      OpenAI.TranslateToGenAlpha send decode c message username =
        Except.error TranslateError.noChoices) ∧
    (∀ body resp choice tl,
      send (OpenAI.buildRequest c message username) = HTTPOutcome.response 200 body →
      decode body = some resp → resp.choices = choice :: tl →
      OpenAI.TranslateToGenAlpha send decode c message username =
        Except.ok choice.message.content) ∧
    (OpenAI.TranslateCall send decode c message username).2 = 1 := by
  rcases hs : send (OpenAI.buildRequest c message username) with e | ⟨s, body⟩
  case failure =>
    have hres : OpenAI.TranslateCall send decode c message username =
        (Except.error (TranslateError.requestFailed e), 1) := by
      unfold OpenAI.TranslateCall
      rw [hs]
    refine ⟨?_, ?_, ?_, ?_, ?_, ?_, ?_⟩ <;>
      simp [OpenAI.TranslateToGenAlpha, hres, hs]
  case response =>
    by_cases h200 : s = 200
    · subst h200
      rcases hd : decode body with _ | resp
      · have hres : OpenAI.TranslateCall send decode c message username =
            (Except.error TranslateError.decodeFailed, 1) := by
          unfold OpenAI.TranslateCall
          rw [hs]
          simp [hd]
        refine ⟨?_, ?_, ?_, ?_, ?_, ?_, ?_⟩ <;>
          simp [OpenAI.TranslateToGenAlpha, hres, hs, hd]
        · rintro body1 resp rfl hresp
          simp [hd] at hresp
        · rintro body1 resp choice tl rfl hresp
          simp [hd] at hresp
      · rcases hc : resp.choices with _ | ⟨choice, tl⟩
        · have hres : OpenAI.TranslateCall send decode c message username =
              (Except.error TranslateError.noChoices, 1) := by
            unfold OpenAI.TranslateCall
            rw [hs]
            simp [hd, hc]
          refine ⟨?_, ?_, ?_, ?_, ?_, ?_, ?_⟩ <;>
            simp [OpenAI.TranslateToGenAlpha, hres, hs, hd, hc]
          rintro body1 resp1 choice tl rfl hresp
          simp [hd] at hresp
          subst hresp
          simp [hc]
        · have hres : OpenAI.TranslateCall send decode c message username =
              (Except.ok choice.message.content, 1) := by
            unfold OpenAI.TranslateCall
            rw [hs]
            simp [hd, hc]
          refine ⟨?_, ?_, ?_, ?_, ?_, ?_, ?_⟩ <;>
            simp [OpenAI.TranslateToGenAlpha, hres, hs, hd, hc]
          · rintro body1 resp1 rfl hresp
            simp [hd] at hresp
            subst hresp
            simp [hc]
          · rintro body1 resp1 choice1 tl1 rfl hresp hch
            simp [hd] at hresp
            subst hresp
            rw [hc] at hch
            simp at hch
            rw [hch.1]
    · have hbne : (s != 200) = true := by
        simp [bne_iff_ne]
        exact h200
      have hres : OpenAI.TranslateCall send decode c message username =
          (Except.error (TranslateError.apiError body s), 1) := by
        unfold OpenAI.TranslateCall
        rw [hs]
        simp [hbne]
      refine ⟨?_, ?_, ?_, ?_, ?_, ?_, ?_⟩ <;>
        simp [OpenAI.TranslateToGenAlpha, hres, hs, h200]

/-- C5 witness: at a concrete failing call (status 500, body `"oops"`),
the result is the typed non-success error carrying the body verbatim and
the status code, and exactly one attempt was made. -/
theorem c5_witness :
    OpenAI.TranslateToGenAlpha (fun _ => HTTPOutcome.response 500 "oops")
        (fun _ => none) (OpenAI.New sampleConfig) "hello world" "alice" =
      Except.error (TranslateError.apiError "oops" 500) ∧
    (OpenAI.TranslateCall (fun _ => HTTPOutcome.response 500 "oops")
        (fun _ => none) (OpenAI.New sampleConfig) "hello world" "alice").2 = 1 :=
  ⟨((c5_transform_result_cases (fun _ => HTTPOutcome.response 500 "oops")
      (fun _ => none) (OpenAI.New sampleConfig) "hello world" "alice").2.2.1)
      500 "oops" rfl (by decide),
   (c5_transform_result_cases (fun _ => HTTPOutcome.response 500 "oops")
      (fun _ => none) (OpenAI.New sampleConfig) "hello world" "alice").2.2.2.2.2.2⟩

/-- C9: configuration loading errors exactly when one of the four required
environment values — bot credential, app-level credential, target-user
list, OpenAI credential — is empty; the channel list is optional and an
empty value selects the all-channels sentinel; an unset model name
defaults to `"gpt-4"` and a set one is taken as given. -/
theorem c9_config_load (env : String → String) :
    (isError (Config.Load env) = true ↔
      (env "SLACK_BOT_TOKEN" = "" ∨ env "SLACK_APP_TOKEN" = "" ∨
       env "SLACK_TARGET_USERS" = "" ∨ env "OPENAI_API_KEY" = "")) ∧
    (∀ cfg, Config.Load env = Except.ok cfg →
      ((env "SLACK_CHANNEL_IDS" = "" →
          Slack.monitorAllOf cfg.slackChannelIDs = true) ∧
       (env "OPENAI_MODEL" = "" → cfg.openAIModel = "gpt-4") ∧
       (env "OPENAI_MODEL" ≠ "" → cfg.openAIModel = env "OPENAI_MODEL"))) := by
  constructor
  · unfold Config.Load isError
    by_cases h1 : env "SLACK_BOT_TOKEN" = "" <;>
      by_cases h2 : env "SLACK_APP_TOKEN" = "" <;>
      by_cases h3 : env "SLACK_TARGET_USERS" = "" <;>
      by_cases h4 : env "OPENAI_API_KEY" = "" <;>
      simp [h1, h2, h3, h4]
  · intro cfg hcfg
    unfold Config.Load at hcfg
    by_cases h1 : env "SLACK_BOT_TOKEN" = "" <;> simp [h1] at hcfg
    by_cases h2 : env "SLACK_APP_TOKEN" = "" <;> simp [h2] at hcfg
    by_cases h3 : env "SLACK_TARGET_USERS" = "" <;> simp [h3] at hcfg
    by_cases h4 : env "OPENAI_API_KEY" = "" <;> simp [h4] at hcfg
    subst hcfg
    refine ⟨fun h5 => ?_, fun h6 => ?_, fun h6 => ?_⟩
    · show Slack.monitorAllOf (splitOnComma (env "SLACK_CHANNEL_IDS")) = true
      rw [h5]
      decide
    · show (if env "OPENAI_MODEL" = "" then "gpt-4" else env "OPENAI_MODEL") = "gpt-4"
      simp [h6]
    · show (if env "OPENAI_MODEL" = "" then "gpt-4" else env "OPENAI_MODEL") =
        env "OPENAI_MODEL"
      simp [h6]

/-- C9 witness: with the bot token unset, loading fails; with all required
values set, channels unset and model unset, loading succeeds, the
all-channels sentinel is selected and the model defaults to `"gpt-4"`. -/
theorem c9_witness :
    isError (Config.Load (fun k => if k = "SLACK_BOT_TOKEN" then "" else "x")) = true ∧
    Slack.monitorAllOf
        (goodCfgLoaded.slackChannelIDs) = true ∧
    goodCfgLoaded.openAIModel = "gpt-4" :=
  ⟨(c9_config_load (fun k => if k = "SLACK_BOT_TOKEN" then "" else "x")).1.mpr
      (Or.inl (by decide)),
   ((c9_config_load goodEnv).2 goodCfgLoaded rfl).1 rfl,
   ((c9_config_load goodEnv).2 goodCfgLoaded rfl).2.1 rfl⟩

/-- C10: allow-set construction trims every configured entry and drops
entries that are empty after trimming; a channel list of two empty entries
is not the all-channels sentinel (that test looks for an empty list or
exactly one untrimmed empty string), so it yields an empty channel
allow-set, under which the channel rule fails for every message. -/
theorem c10_trim_drop_and_empty_set (entries : List String) (x : String) :
    (memberOf (Slack.trimSet entries) x = true ↔
      (x ≠ "" ∧ ∃ e ∈ entries, trimSpace e = x)) ∧
    Slack.monitorAllOf ["", ""] = false ∧
    (Slack.New doubleEmptyConfig).channelIDs = [] ∧
    (∀ m : MessageEvent,
        Slack.channelRuleOK (Slack.New doubleEmptyConfig) m = false) := by
  refine ⟨?_, by decide, by decide, ?_⟩
  · unfold memberOf Slack.trimSet
    rw [show ∀ (l : List String) (y : String), (l.contains y = true ↔ y ∈ l) from
      fun l y => List.elem_iff]
    simp only [List.mem_filter, List.mem_map, bne_iff_ne, ne_eq]
    constructor
    · rintro ⟨⟨e, he, rfl⟩, hne⟩
      exact ⟨hne, e, he, rfl⟩
    · rintro ⟨hne, e, he, rfl⟩
      exact ⟨⟨e, he, rfl⟩, hne⟩
  · intro m
    have hcl : Slack.New doubleEmptyConfig =
        { channelIDs := [], targetUsers := ["alice"], monitorAllChannels := false } := by
      decide
    simp [Slack.channelRuleOK, hcl, memberOf]

/-- C10 witness: at a concrete entry list, a trimmed entry is a member and
a whitespace-only entry is dropped; and the concrete double-empty channel
configuration rejects the end-to-end message by the channel rule. -/
theorem c10_witness :
    (memberOf (Slack.trimSet [" C7 ", " "]) "C7" = true ↔
      ("C7" ≠ "" ∧ ∃ e ∈ [" C7 ", " "], trimSpace e = "C7")) ∧
    Slack.channelRuleOK (Slack.New doubleEmptyConfig) helloMsg = false :=
  ⟨(c10_trim_drop_and_empty_set [" C7 ", " "] "C7").1,
   (c10_trim_drop_and_empty_set [] "").2.2.2 helloMsg⟩

end SlackBotAPI
